import Mathlib

/-!
Verification of the vector-store lifecycle module (`src/vectorstore/store.py`)
of the rag-retriever repository.

The module manages a persisted similarity index: `VectorStore` lazily opens
or creates a Chroma collection (`_get_or_create_db`), splits and inserts
document batches (`add_documents`), and runs scored similarity queries
(`search`).  We embed the module shallowly: Python objects become Lean
structures, the mutable `self._db` cache and the filesystem become explicit
state, exceptions become an error type threaded through `Except`, and the
external collaborators (the langchain text splitter, the Chroma engine, the
embedding provider) become an environment of behaviour functions so that
theorems can quantify over every way those collaborators may succeed or fail.
-/

namespace RagRetriever

/-- A langchain `Document`: a unit of text plus a key-value metadata map. -/
structure Document where
  page_content : String
  metadata : List (String × String)
deriving DecidableEq, Repr

/-- A Python exception, as far as this module distinguishes them:
`ValueError` (the only class the `except` clause in `add_documents`
catches), the `UnboundLocalError` the interpreter raises when a local
variable is read before assignment, and every other exception class. -/
inductive PyErr where
  | valueError (msg : String)
  | unboundLocalError (var : String)
  | otherError (msg : String)
deriving DecidableEq, Repr

/-- Whether an exception is caught by `except ValueError`. -/
def PyErr.isValueError : PyErr → Bool
  | .valueError _ => true
  | _ => false

/-- Outcome of a `db.add_documents(chunks)` call on an open Chroma handle:
either every chunk is embedded and written, or the call raises after
having written some prefix of the batch (possibly none of it). -/
inductive InsertOutcome where
  | ok
  | fail (written : Nat) (e : PyErr)
deriving DecidableEq, Repr

/-- The filesystem and Chroma persistence as this module observes them:
whether the persistence directory exists, the chunks persisted in it
(`os.listdir` is non-empty exactly when this list is non-empty), and a
counter from which fresh handle identities are drawn. -/
structure World where
  dirExists : Bool
  dirFiles : List Document
  nextId : Nat
deriving DecidableEq, Repr

/-- The mutable fields of one `VectorStore` instance: the world it acts on
and the cached open handle `self._db` (a handle is identified by the
`World.nextId` value at which it was opened). -/
structure StoreState where
  world : World
  _db : Option Nat
deriving DecidableEq, Repr

/-- Behaviour of the external collaborators during one call:
`splitResult` is the combined outcome of constructing the
`RecursiveCharacterTextSplitter` and running `split_documents` (either the
produced chunks or the exception raised); `loadResult` is the outcome of the
`Chroma(...)` load constructor; `insertOutcome` is the outcome of
`db.add_documents` on an open handle; `createResult` is the outcome of
`Chroma.from_documents`; `rawScores` gives the scored candidates the engine
ranks for a query against the persisted chunks. -/
structure Env where
  splitResult : List Document → Except PyErr (List Document)
  loadResult : Except PyErr Unit
  insertOutcome : List Document → InsertOutcome
  createResult : List Document → Except PyErr Unit
  rawScores : List Document → String → List (Document × ℚ)

/-- `VectorStore._get_or_create_db(documents)`.  Faithful to the source:
return the cached handle at once when present; otherwise `os.makedirs`
the directory (`exist_ok=True`); when the directory listing is non-empty,
load the existing collection, cache the handle, and, when `documents` was
passed, insert them into it (the handle is cached before that insert, and
a failing insert propagates); when the listing is empty, raise `ValueError`
if no documents were passed, else create a fresh persisted collection from
exactly those documents and cache its handle. -/
def _get_or_create_db (env : Env) (st : StoreState)
    (documents : Option (List Document)) : Except PyErr Nat × StoreState :=
  match st._db with
  | some h => (Except.ok h, st)
  | none =>
    let st := { st with world := { st.world with dirExists := true } }
    if st.world.dirFiles ≠ [] then
      match env.loadResult with
      | Except.error e => (Except.error e, st)
      | Except.ok _ =>
        let h := st.world.nextId
        let st := { st with
          world := { st.world with nextId := st.world.nextId + 1 },
          _db := some h }
        match documents with
        | none => (Except.ok h, st)
        | some docs =>
          match env.insertOutcome docs with
          | InsertOutcome.ok =>
            (Except.ok h, { st with world :=
              { st.world with dirFiles := st.world.dirFiles ++ docs } })
          | InsertOutcome.fail k e =>
            (Except.error e, { st with world :=
              { st.world with dirFiles := st.world.dirFiles ++ docs.take k } })
    else
      match documents with
      | none =>
        (Except.error (PyErr.valueError
          "No existing vector store found and no documents provided to create one."),
         st)
      | some docs =>
        match env.createResult docs with
        | Except.error e => (Except.error e, st)
        | Except.ok _ =>
          let h := st.world.nextId
          (Except.ok h, { st with
            world := { dirExists := true, dirFiles := docs,
                       nextId := st.world.nextId + 1 },
            _db := some h })

/-- `VectorStore.add_documents(documents)`.  Faithful to the source: the
`try` block builds the splitter, splits the documents into `splits`, obtains
a handle via `_get_or_create_db()` with no documents, inserts the chunks on
it, and returns `len(splits)`; `except ValueError` retries via
`_get_or_create_db(splits)` and returns `len(splits)` — reading `splits`
there raises `UnboundLocalError` when the `ValueError` predates its
assignment, and an exception raised inside the handler propagates. -/
def add_documents (env : Env) (st : StoreState) (documents : List Document) :
    Except PyErr Nat × StoreState :=
  match env.splitResult documents with
  | Except.error e =>
    if e.isValueError then
      (Except.error (PyErr.unboundLocalError "splits"), st)
    else
      (Except.error e, st)
  | Except.ok splits =>
    match _get_or_create_db env st none with
    | (Except.ok _, st1) =>
      match env.insertOutcome splits with
      | InsertOutcome.ok =>
        (Except.ok splits.length, { st1 with world :=
          { st1.world with dirFiles := st1.world.dirFiles ++ splits } })
      | InsertOutcome.fail k e =>
        let st2 := { st1 with world :=
          { st1.world with dirFiles := st1.world.dirFiles ++ splits.take k } }
        if e.isValueError then
          match _get_or_create_db env st2 (some splits) with
          | (Except.ok _, st3) => (Except.ok splits.length, st3)
          | (Except.error e2, st3) => (Except.error e2, st3)
        else
          (Except.error e, st2)
    | (Except.error e, st1) =>
      if e.isValueError then
        match _get_or_create_db env st1 (some splits) with
        | (Except.ok _, st2) => (Except.ok splits.length, st2)
        | (Except.error e2, st2) => (Except.error e2, st2)
      else
        (Except.error e, st1)

/-- Insert a scored result into a list kept in descending score order. -/
def insertDesc (x : Document × ℚ) : List (Document × ℚ) → List (Document × ℚ)
  | [] => [x]
  | y :: ys => if y.2 ≤ x.2 then x :: y :: ys else y :: insertDesc x ys

/-- Sort scored results by descending relevance score. -/
def sortScoresDesc : List (Document × ℚ) → List (Document × ℚ)
  | [] => []
  | x :: xs => insertDesc x (sortScoresDesc xs)

/-- Modelled from the spec: the Chroma/langchain
`similarity_search_with_relevance_scores` call, which is external library
code not present under `src/`.  Per the spec it performs nearest-neighbour
search for up to `k` candidates ranked by descending normalized relevance
score and discards every result scoring below `score_threshold`. -/
def similarity_search_with_relevance_scores (raw : List (Document × ℚ))
    (k : Nat) (score_threshold : ℚ) : List (Document × ℚ) :=
  ((sortScoresDesc raw).take k).filter (fun r => score_threshold ≤ r.2)

/-- `VectorStore.search(query, limit, score_threshold)`.  Faithful to the
source: obtain the handle via `_get_or_create_db()` with no documents
(propagating its exception) and return the engine results for the query. -/
def search (env : Env) (st : StoreState) (query : String) (limit : Nat)
    (score_threshold : ℚ) :
    Except PyErr (List (Document × ℚ)) × StoreState :=
  match _get_or_create_db env st none with
  | (Except.error e, st1) => (Except.error e, st1)
  | (Except.ok _, st1) =>
    (Except.ok (similarity_search_with_relevance_scores
      (env.rawScores st1.world.dirFiles query) limit score_threshold), st1)

/-- Chunk a character list: windows of `cs` characters advancing by `step`,
with `fuel` bounding the recursion by the text length. -/
def split_text_go (cs step : Nat) : Nat → List Char → List (List Char)
  | 0, _ => []
  | fuel + 1, s =>
    if s.length ≤ cs then [s]
    else s.take cs :: split_text_go cs step fuel (s.drop step)

/-- Modelled from the spec: the external Chunker splitting one text into
segments of at most `chunk_size` characters where consecutive segments
share `chunk_overlap` characters of context.  The real implementation
(langchain `RecursiveCharacterTextSplitter.split_text`) is external library
code not present under `src/`. -/
def split_text (chunk_size chunk_overlap : Nat) (text : String) :
    List String :=
  (split_text_go chunk_size (chunk_size - chunk_overlap)
    (text.length + 1) text.toList).map (fun cs => String.mk cs)

/-- Modelled from the spec: the external Chunker `split_documents` step,
which chunks the text of each input document and copies the metadata of the
parent document unchanged onto every chunk derived from it (langchain
`TextSplitter.split_documents` / `create_documents`, external library code
not present under `src/`). -/
def split_documents (chunk_size chunk_overlap : Nat)
    (docs : List Document) : List Document :=
  (docs.map (fun d =>
    (split_text chunk_size chunk_overlap d.page_content).map
      (fun t => { page_content := t, metadata := d.metadata : Document }))).flatten

/-- A sample source document (the concrete scenario of the spec). -/
def doc0 : Document :=
  ⟨"Paris is the capital of France.", [("source", "geo.txt")]⟩

/-- A second sample document distinct from `doc0`. -/
def docNew : Document :=
  ⟨"Berlin is the capital of Germany.", [("source", "geo2.txt")]⟩

/-- Collaborators that all succeed: the splitter returns the documents as
the chunks, loading and creating the collection succeed, inserts write the
whole batch, and the engine ranks no candidates. -/
def baseEnv : Env where
  splitResult := fun docs => Except.ok docs
  loadResult := Except.ok ()
  insertOutcome := fun _ => InsertOutcome.ok
  createResult := fun _ => Except.ok ()
  rawScores := fun _ _ => []

/-- A store on a persistence directory that does not exist yet. -/
def emptyStore : StoreState := ⟨⟨false, [], 0⟩, none⟩

/-- A store whose directory already holds one persisted chunk, with no
handle cached yet. -/
def loadedStore : StoreState := ⟨⟨true, [doc0], 0⟩, none⟩

/-- A store with a handle already cached. -/
def cachedStore : StoreState := ⟨⟨true, [doc0], 1⟩, some 0⟩

/-- Collaborators where `db.add_documents` raises `ValueError` having
written none of the batch. -/
def envInsertVE : Env :=
  { baseEnv with
    insertOutcome := fun _ => InsertOutcome.fail 0 (PyErr.valueError "insert failed") }

/-- Collaborators where `db.add_documents` raises an exception that is not
a `ValueError`, having written none of the batch. -/
def envInsertOther : Env :=
  { baseEnv with
    insertOutcome := fun _ => InsertOutcome.fail 0 (PyErr.otherError "connection reset") }

/-- Collaborators where building or running the text splitter raises
`ValueError` (as the real splitter does when the configured overlap
exceeds the chunk size). -/
def envSplitVE : Env :=
  { baseEnv with
    splitResult := fun _ =>
      Except.error (PyErr.valueError "Got a larger chunk overlap than chunk size") }

end RagRetriever

namespace RagRetriever

theorem mem_insertDesc {x y : Document × ℚ} {l : List (Document × ℚ)}
    (h : y ∈ insertDesc x l) : y = x ∨ y ∈ l := by
  induction l with
  | nil =>
    simp [insertDesc] at h
    exact Or.inl h
  | cons z zs ih =>
    rw [insertDesc] at h
    split at h
    · rcases List.mem_cons.mp h with h1 | h2
      · exact Or.inl h1
      · exact Or.inr h2
    · rcases List.mem_cons.mp h with h1 | h2
      · exact Or.inr (by simp [h1])
      · rcases ih h2 with h3 | h4
        · exact Or.inl h3
        · exact Or.inr (List.mem_cons_of_mem _ h4)

theorem pairwise_insertDesc {x : Document × ℚ} {l : List (Document × ℚ)}
    (h : l.Pairwise (fun a b => b.2 ≤ a.2)) :
    (insertDesc x l).Pairwise (fun a b => b.2 ≤ a.2) := by
  induction l with
  | nil => simp [insertDesc]
  | cons z zs ih =>
    rw [insertDesc]
    rcases List.pairwise_cons.mp h with ⟨hz, hzs⟩
    split
    · rename_i hle
      refine List.pairwise_cons.mpr ⟨?_, h⟩
      intro b hb
      rcases List.mem_cons.mp hb with rfl | hb2
      · exact hle
      · exact le_trans (hz b hb2) hle
    · rename_i hnle
      refine List.pairwise_cons.mpr ⟨?_, ih hzs⟩
      intro b hb
      rcases mem_insertDesc hb with rfl | hb2
      · exact le_of_not_le hnle
      · exact hz b hb2

theorem pairwise_sortScoresDesc (l : List (Document × ℚ)) :
    (sortScoresDesc l).Pairwise (fun a b => b.2 ≤ a.2) := by
  induction l with
  | nil => simp [sortScoresDesc]
  | cons x xs ih =>
    rw [sortScoresDesc]
    exact pairwise_insertDesc ih

theorem pipeline_length (raw : List (Document × ℚ)) (k : Nat) (θ : ℚ) :
    (similarity_search_with_relevance_scores raw k θ).length ≤ k := by
  simp only [similarity_search_with_relevance_scores]
  exact le_trans (List.length_filter_le _ _)
    (by simp [List.length_take])

theorem pipeline_scores (raw : List (Document × ℚ)) (k : Nat) (θ : ℚ) :
    ∀ r ∈ similarity_search_with_relevance_scores raw k θ, θ ≤ r.2 := by
  intro r hr
  simp only [similarity_search_with_relevance_scores, List.mem_filter] at hr
  exact of_decide_eq_true hr.2

theorem pipeline_sorted (raw : List (Document × ℚ)) (k : Nat) (θ : ℚ) :
    (similarity_search_with_relevance_scores raw k θ).Pairwise
      (fun a b => b.2 ≤ a.2) := by
  simp only [similarity_search_with_relevance_scores]
  exact List.Pairwise.sublist
    ((List.filter_sublist _).trans (List.take_sublist _ _))
    (pairwise_sortScoresDesc raw)

/-- Claim C3 (confirmed): with no handle cached and the persistence
directory absent or empty, a `search` call raises the no-index
`ValueError` instead of returning results. -/
theorem C3_search_no_index (env : Env) (st : StoreState) (q : String)
    (limit : Nat) (θ : ℚ) (hdb : st._db = none)
    (hfiles : st.world.dirFiles = []) :
    (search env st q limit θ).1 = Except.error (PyErr.valueError
      "No existing vector store found and no documents provided to create one.") := by
  simp [search, _get_or_create_db, hdb, hfiles]

/-- Witness for C3 at a store on a never-populated directory. -/
theorem C3_witness :
    (search baseEnv emptyStore "What is the capital of France?" 5 (1/5 : ℚ)).1 =
      Except.error (PyErr.valueError
        "No existing vector store found and no documents provided to create one.") :=
  C3_search_no_index baseEnv emptyStore "What is the capital of France?" 5
    (1/5 : ℚ) rfl rfl

/-- Claim C9 (confirmed): a `ValueError` raised before `splits` is assigned
makes the `except` handler read an unassigned local, so the call fails with
`UnboundLocalError` and the state is untouched. -/
theorem C9_unbound_local (env : Env) (st : StoreState)
    (docs : List Document) (m : String)
    (hsplit : env.splitResult docs = Except.error (PyErr.valueError m)) :
    add_documents env st docs =
      (Except.error (PyErr.unboundLocalError "splits"), st) := by
  simp [add_documents, hsplit, PyErr.isValueError]

/-- Witness for C9 with a splitter rejecting its configuration. -/
theorem C9_witness :
    add_documents envSplitVE emptyStore [doc0] =
      (Except.error (PyErr.unboundLocalError "splits"), emptyStore) :=
  C9_unbound_local envSplitVE emptyStore [doc0]
    "Got a larger chunk overlap than chunk size" rfl

/-- Claim C10 (confirmed): a failing `search` on a store whose persistence
directory does not exist first creates the directory (left empty) and then
raises the no-index `ValueError`: the filesystem is changed. -/
theorem C10_search_creates_dir (env : Env) (st : StoreState) (q : String)
    (limit : Nat) (θ : ℚ) (hdb : st._db = none)
    (_hnoexist : st.world.dirExists = false)
    (hfiles : st.world.dirFiles = []) :
    ((search env st q limit θ).2).world.dirExists = true ∧
    ((search env st q limit θ).2).world.dirFiles = [] ∧
    (search env st q limit θ).1 = Except.error (PyErr.valueError
      "No existing vector store found and no documents provided to create one.") := by
  refine ⟨?_, ?_, ?_⟩ <;> simp [search, _get_or_create_db, hdb, hfiles]

/-- Witness for C10 at a store whose directory does not exist. -/
theorem C10_witness :
    ((search baseEnv emptyStore "q" 5 (1/5 : ℚ)).2).world.dirExists = true ∧
    ((search baseEnv emptyStore "q" 5 (1/5 : ℚ)).2).world.dirFiles = [] ∧
    (search baseEnv emptyStore "q" 5 (1/5 : ℚ)).1 =
      Except.error (PyErr.valueError
        "No existing vector store found and no documents provided to create one.") :=
  C10_search_creates_dir baseEnv emptyStore "q" 5 (1/5 : ℚ) rfl rfl rfl

end RagRetriever

namespace RagRetriever

/-- Claim C4 (confirmed): with no handle cached and a successful engine,
the open-or-create operation loads a non-empty directory, caches the handle
and returns it with the index unchanged; inserts pending chunks into the
freshly loaded index before returning when they are supplied; and on an
empty directory with pending chunks creates a brand-new persisted index
holding exactly those chunks, caches and returns its handle. -/
theorem C4_open_or_create (env : Env) (st : StoreState)
    (chunks : List Document) (hdb : st._db = none)
    (hload : env.loadResult = Except.ok ()) :
    (st.world.dirFiles ≠ [] →
      _get_or_create_db env st none =
        (Except.ok st.world.nextId,
         { st with
           world := { st.world with dirExists := true,
                                    nextId := st.world.nextId + 1 },
           _db := some st.world.nextId })) ∧
    (st.world.dirFiles ≠ [] → env.insertOutcome chunks = InsertOutcome.ok →
      _get_or_create_db env st (some chunks) =
        (Except.ok st.world.nextId,
         { st with
           world := { dirExists := true,
                      dirFiles := st.world.dirFiles ++ chunks,
                      nextId := st.world.nextId + 1 },
           _db := some st.world.nextId })) ∧
    (st.world.dirFiles = [] → env.createResult chunks = Except.ok () →
      _get_or_create_db env st (some chunks) =
        (Except.ok st.world.nextId,
         { st with
           world := { dirExists := true, dirFiles := chunks,
                      nextId := st.world.nextId + 1 },
           _db := some st.world.nextId })) := by
  refine ⟨fun hne => ?_, fun hne hins => ?_, fun hemp hcr => ?_⟩ <;>
    simp [_get_or_create_db, hdb, hload, *]

/-- Witness for C4 on a directory holding one persisted chunk. -/
theorem C4_witness :
    _get_or_create_db baseEnv loadedStore none =
      (Except.ok 0, ⟨⟨true, [doc0], 1⟩, some 0⟩) :=
  (C4_open_or_create baseEnv loadedStore [docNew] rfl rfl).1 (by decide)

/-- Claim C6 (confirmed): once a handle is cached, the open-or-create
operation returns that same handle with the state untouched, and every
later add or search call leaves that cached handle in place. -/
theorem C6_cached_handle (env : Env) (st : StoreState) (h : Nat)
    (hdb : st._db = some h) :
    (∀ docs, _get_or_create_db env st docs = (Except.ok h, st)) ∧
    (∀ docs, ((add_documents env st docs).2)._db = some h) ∧
    (∀ q limit θ, ((search env st q limit θ).2)._db = some h) := by
  refine ⟨fun docs => by simp [_get_or_create_db, hdb], fun docs => ?_,
    fun q limit θ => by simp [search, _get_or_create_db, hdb]⟩
  cases hs : env.splitResult docs with
  | error e =>
    cases e <;> simp [add_documents, hs, hdb, PyErr.isValueError]
  | ok splits =>
    cases hi : env.insertOutcome splits with
    | ok => simp [add_documents, hs, hi, _get_or_create_db, hdb]
    | fail k e =>
      cases e <;>
        simp [add_documents, hs, hi, _get_or_create_db, hdb, PyErr.isValueError]

/-- Witness for C6 at a store with a cached handle. -/
theorem C6_witness :
    (∀ docs, _get_or_create_db baseEnv cachedStore docs =
      (Except.ok 0, cachedStore)) ∧
    (∀ docs, ((add_documents baseEnv cachedStore docs).2)._db = some 0) ∧
    (∀ q limit θ, ((search baseEnv cachedStore q limit θ).2)._db = some 0) :=
  C6_cached_handle baseEnv cachedStore 0 rfl

/-- Claim C7 (confirmed): a normally returning add call returns exactly the
number of chunks the splitting step produced for the given documents, never
the cumulative index size. -/
theorem C7_returns_chunk_count (env : Env) (st : StoreState)
    (docs : List Document) (n : Nat) (st' : StoreState)
    (hrun : add_documents env st docs = (Except.ok n, st')) :
    ∃ splits, env.splitResult docs = Except.ok splits ∧
      n = splits.length := by
  cases hs : env.splitResult docs with
  | error e =>
    exfalso
    cases e <;> simp [add_documents, hs, PyErr.isValueError] at hrun
  | ok splits =>
    refine ⟨splits, rfl, ?_⟩
    simp only [add_documents, hs] at hrun
    repeat' split at hrun
    all_goals simp_all

/-- Witness for C7: adding one document to an index already holding one
chunk returns 1 (the batch size), not 2 (the cumulative size). -/
theorem C7_witness :
    ∃ splits, baseEnv.splitResult [docNew] = Except.ok splits ∧
      1 = splits.length :=
  C7_returns_chunk_count baseEnv loadedStore [docNew] 1
    (add_documents baseEnv loadedStore [docNew]).2 rfl

end RagRetriever

namespace RagRetriever

/-- Claim C5 (confirmed, against the spec-modelled external search call):
against a populated index, a search with positive limit and a threshold in
the unit interval returns at most limit results, each scoring at least the
threshold, in descending score order. -/
theorem C5_search_contract (env : Env) (st : StoreState) (q : String)
    (limit : Nat) (θ : ℚ) (_hl : 0 < limit) (_h0 : 0 ≤ θ) (_h1 : θ ≤ 1)
    (hpop : st._db.isSome = true ∨
      (st.world.dirFiles ≠ [] ∧ env.loadResult = Except.ok ())) :
    ∃ results st', search env st q limit θ = (Except.ok results, st') ∧
      results.length ≤ limit ∧
      (∀ r ∈ results, θ ≤ r.2) ∧
      results.Pairwise (fun a b => b.2 ≤ a.2) := by
  have hrun : ∃ st1, search env st q limit θ =
      (Except.ok (similarity_search_with_relevance_scores
        (env.rawScores st1.world.dirFiles q) limit θ), st1) := by
    cases hdb : st._db with
    | some h => exact ⟨st, by simp [search, _get_or_create_db, hdb]⟩
    | none =>
      rcases hpop with hsome | ⟨hne, hload⟩
      · rw [hdb] at hsome
        exact absurd hsome (by simp)
      · refine ⟨{ st with
            world := { st.world with dirExists := true,
                                     nextId := st.world.nextId + 1 },
            _db := some st.world.nextId }, ?_⟩
        simp [search, _get_or_create_db, hdb, hne, hload]
  obtain ⟨st1, hrun⟩ := hrun
  exact ⟨_, st1, hrun, pipeline_length _ limit θ, pipeline_scores _ limit θ,
    pipeline_sorted _ limit θ⟩

/-- Witness for C5 at a store with a cached handle. -/
theorem C5_witness :
    ∃ results st',
      search baseEnv cachedStore "What is the capital of France?" 5
        (1/5 : ℚ) = (Except.ok results, st') ∧
      results.length ≤ 5 ∧
      (∀ r ∈ results, (1/5 : ℚ) ≤ r.2) ∧
      results.Pairwise (fun a b => b.2 ≤ a.2) :=
  C5_search_contract baseEnv cachedStore "What is the capital of France?" 5
    (1/5 : ℚ) (by decide) (by norm_num) (by norm_num) (Or.inl rfl)

/-- Claim C8 (confirmed, against the spec-modelled external Chunker): every
chunk the splitting step produces carries the metadata mapping of a parent
input document unchanged. -/
theorem C8_metadata_preserved (cs co : Nat) (docs : List Document)
    (c : Document) (hc : c ∈ split_documents cs co docs) :
    ∃ d ∈ docs, c.metadata = d.metadata := by
  simp only [split_documents, List.mem_flatten, List.mem_map] at hc
  obtain ⟨l, ⟨d, hd, rfl⟩, hcl⟩ := hc
  obtain ⟨t, _ht, rfl⟩ := List.mem_map.mp hcl
  exact ⟨d, hd, rfl⟩

/-- Witness for C8 on the concrete scenario document of the spec. -/
theorem C8_witness : ∃ d ∈ [doc0], doc0.metadata = d.metadata :=
  C8_metadata_preserved 1000 0 [doc0] doc0 (by decide)

end RagRetriever

namespace RagRetriever

theorem dirFiles_get_none_ok (env : Env) (st st1 : StoreState) (h : Nat)
    (hg : _get_or_create_db env st none = (Except.ok h, st1)) :
    st1.world.dirFiles = st.world.dirFiles := by
  simp only [_get_or_create_db] at hg
  repeat' split at hg
  all_goals try simp only [Prod.mk.injEq] at hg
  all_goals obtain ⟨h1, rfl⟩ := hg
  all_goals simp_all

theorem get_none_error_cases (env : Env) (st st1 : StoreState) (e : PyErr)
    (hg : _get_or_create_db env st none = (Except.error e, st1)) :
    st1._db = none ∧ st1.world.dirFiles = st.world.dirFiles ∧
    (st.world.dirFiles = [] ∨ env.loadResult = Except.error e) := by
  simp only [_get_or_create_db] at hg
  repeat' split at hg
  all_goals try simp only [Prod.mk.injEq] at hg
  all_goals obtain ⟨h1, rfl⟩ := hg
  all_goals simp_all

theorem get_some_ok_dirFiles (env : Env) (st st1 : StoreState)
    (docs : List Document) (h : Nat) (hdb : st._db = none)
    (hins : env.insertOutcome docs = InsertOutcome.ok)
    (hg : _get_or_create_db env st (some docs) = (Except.ok h, st1)) :
    st1.world.dirFiles = st.world.dirFiles ++ docs := by
  simp only [_get_or_create_db, hdb] at hg
  repeat' split at hg
  all_goals try simp only [Prod.mk.injEq] at hg
  all_goals obtain ⟨h1, rfl⟩ := hg
  all_goals simp_all

/-- Counterexample to claim C1: when the database insert raises
`ValueError` having written nothing, the fallback handler gets the cached
handle back at once without inserting, so the call returns the chunk count
normally while the persisted index never received the chunk. -/
theorem C1_counterexample :
    (add_documents envInsertVE loadedStore [docNew]).1 = Except.ok 1 ∧
    docNew ∉ ((add_documents envInsertVE loadedStore [docNew]).2).world.dirFiles :=
  ⟨rfl, by decide⟩

/-- Claim C1 as amended: provided the database insert on the produced
chunks raises nothing, a normally returning add call has appended every
produced chunk to the persisted index; only a ValueError raised by the
insert can make the call return normally with chunks missing. -/
theorem C1_full_insert_when_insert_ok (env : Env) (st : StoreState)
    (docs splits : List Document) (n : Nat) (st' : StoreState)
    (hsplit : env.splitResult docs = Except.ok splits)
    (hins : env.insertOutcome splits = InsertOutcome.ok)
    (hrun : add_documents env st docs = (Except.ok n, st')) :
    n = splits.length ∧
    st'.world.dirFiles = st.world.dirFiles ++ splits := by
  simp only [add_documents, hsplit] at hrun
  rcases hg : _get_or_create_db env st none with ⟨r, st1⟩
  rw [hg] at hrun
  cases r with
  | ok h =>
    have hdf := dirFiles_get_none_ok env st st1 h hg
    simp only [hins, Prod.mk.injEq, Except.ok.injEq] at hrun
    obtain ⟨hn, hst⟩ := hrun
    subst hst
    exact ⟨hn.symm, by simp [hdf]⟩
  | error e =>
    obtain ⟨hdb1, hdf1, _⟩ := get_none_error_cases env st st1 e hg
    cases hve : e.isValueError with
    | true =>
      simp only [hve, if_true] at hrun
      rcases hg2 : _get_or_create_db env st1 (some splits) with ⟨r2, st2⟩
      rw [hg2] at hrun
      cases r2 with
      | ok h2 =>
        have hdf2 := get_some_ok_dirFiles env st1 st2 splits h2 hdb1 hins hg2
        simp only [Prod.mk.injEq, Except.ok.injEq] at hrun
        obtain ⟨hn, hst⟩ := hrun
        subst hst
        exact ⟨hn.symm, by rw [hdf2, hdf1]⟩
      | error e2 => simp at hrun
    | false =>
      simp only [hve, if_false] at hrun
      simp at hrun

/-- Witness for the amended C1 on a fresh store. -/
theorem C1_witness :
    1 = [doc0].length ∧
    (⟨⟨true, [doc0], 1⟩, some 0⟩ : StoreState).world.dirFiles =
      emptyStore.world.dirFiles ++ [doc0] :=
  C1_full_insert_when_insert_ok baseEnv emptyStore [doc0] [doc0] 1
    ⟨⟨true, [doc0], 1⟩, some 0⟩ rfl rfl rfl

/-- Counterexample to claim C2: a `ValueError` raised by the database
insert does not propagate to the caller; the call instead returns the
chunk count normally through the fallback path. -/
theorem C2_counterexample :
    envInsertVE.insertOutcome [docNew] =
      InsertOutcome.fail 0 (PyErr.valueError "insert failed") ∧
    (add_documents envInsertVE loadedStore [docNew]).1 = Except.ok 1 :=
  ⟨rfl, rfl⟩

/-- Claim C2 as amended: every exception from the text splitter or the
database insert that is not a `ValueError` propagates unchanged to the
caller; a `ValueError` from those collaborators is caught by the fallback
handler instead of propagating. -/
theorem C2_non_valueerror_propagates (env : Env) (st : StoreState)
    (docs : List Document) (e : PyErr) (he : e.isValueError = false) :
    (env.splitResult docs = Except.error e →
      (add_documents env st docs).1 = Except.error e) ∧
    (∀ splits h k, env.splitResult docs = Except.ok splits →
      st._db = some h → env.insertOutcome splits = InsertOutcome.fail k e →
      (add_documents env st docs).1 = Except.error e) := by
  constructor
  · intro hsplit
    simp [add_documents, hsplit, he]
  · intro splits h k hsplit hdb hins
    simp [add_documents, _get_or_create_db, hsplit, hdb, hins, he]

/-- Witness for the amended C2: a non-ValueError insert failure surfaces
unchanged. -/
theorem C2_witness :
    (add_documents envInsertOther cachedStore [docNew]).1 =
      Except.error (PyErr.otherError "connection reset") :=
  (C2_non_valueerror_propagates envInsertOther cachedStore [docNew]
    (PyErr.otherError "connection reset") rfl).2 [docNew] 0 0 rfl rfl rfl

end RagRetriever
